import Mathlib

/-
Verification of the NamedType strong-typing and unit-conversion library.
The library header is embedded below from its specification; the demo
program main.cpp provides the concrete units and expected values.
-/

namespace NamedTypeSpec

/-- Modelled from the spec: fluent::NamedType from named_type.hpp (the header is
not under src/). A StrongValue owns exactly one value of the underlying type U
together with a compile-time tag; get returns the underlying value. -/
structure NamedType (U : Type) (Tag : Type) where
  get : U

/-- Modelled from the spec: the Addable capability defines a + b for two values
of the same StrongValue type, whose underlying value is the sum of the
underlying values of the operands. -/
def NamedType.add {U Tag : Type} [Add U] (a b : NamedType U Tag) : NamedType U Tag :=
  NamedType.mk (a.get + b.get)

instance {U Tag : Type} [Add U] : Add (NamedType U Tag) :=
  Add.mk NamedType.add

/-- Modelled from the spec: the Comparable capability defines equality of two
values of the same StrongValue type by delegating to the underlying equality. -/
def NamedType.beq {U Tag : Type} [DecidableEq U] (a b : NamedType U Tag) : Bool :=
  decide (a.get = b.get)

/-- Modelled from the spec: under Comparable, the not-equal operator follows
from equality as its boolean negation. -/
def NamedType.bne {U Tag : Type} [DecidableEq U] (a b : NamedType U Tag) : Bool :=
  !(NamedType.beq a b)

/-- Modelled from the spec: the Hashable capability contributes a hash computed
from the hash of the underlying value. -/
def NamedType.hashWith {U Tag : Type} (h : U → Nat) (a : NamedType U Tag) : Nat :=
  h a.get

/-- Modelled from the spec: the ImplicitlyConvertible capability unwraps and
applies the underlying conversion of the target type, adding no semantics of
its own. -/
def NamedType.implicitConvert {U V Tag : Type} (f : U → V) (a : NamedType U Tag) : V :=
  f a.get

/-- Modelled from the spec: the C++ int to unsigned conversion rule, two-sided
complement wraparound modulo 2 to the 32. -/
def toUnsigned32 (v : ℤ) : ℤ :=
  v % 2 ^ 32

/-- Maximum representable 32-bit unsigned value. -/
def unsignedMax32 : ℤ :=
  2 ^ 32 - 1

inductive MyIntTag : Type

inductive SerialNumberTag : Type

inductive NameRefParameter : Type

/-- A store of referents, addressed by location: the environment in which a
reference-instantiated StrongValue lives. -/
def Heap (α : Type) : Type :=
  Nat → α

/-- Modelled from the spec: a StrongValue instantiated over a reference type
does not own the referent; it holds a non-owning reference (a location). -/
structure RefNamedType (Tag : Type) where
  loc : Nat

/-- Modelled from the spec: assigning through get of a reference-instantiated
StrongValue writes the referent location in place. -/
def RefNamedType.set {Tag α : Type} (w : RefNamedType Tag) (h : Heap α) (v : α) : Heap α :=
  fun l => if l = w.loc then v else h l

/-- NameRef from main.cpp: a NamedType over a string reference. -/
def NameRef : Type :=
  RefNamedType NameRefParameter

/-- changeValue from main.cpp: assigns the string value2 through the wrapper. -/
def changeValue (name : NameRef) (h : Heap String) : Heap String :=
  RefNamedType.set name h "value2"

/-- Modelled from the spec: a ratio unit is either the base unit of a family or
derived from a parent unit by a rational scale (MultipleOf chains). -/
inductive RatioUnit (α : Type) : Type where
  | base : RatioUnit α
  | multipleOf : RatioUnit α → α → RatioUnit α

/-- Modelled from the spec: fluent::MultipleOf declares a derived unit over a
base unit with a given scale. -/
def MultipleOf {α : Type} (parent : RatioUnit α) (r : α) : RatioUnit α :=
  RatioUnit.multipleOf parent r

/-- Cumulative scale of a unit relative to the root base unit of its family. -/
def RatioUnit.scale {α : Type} [Field α] : RatioUnit α → α
  | RatioUnit.base => 1
  | RatioUnit.multipleOf p r => RatioUnit.scale p * r

/-- A quantity: an instance of a unit, storing the value expressed in that
unit (construction from a literal stores the literal unscaled). -/
structure Quantity {α : Type} (u : RatioUnit α) where
  value : α

/-- Modelled from the spec: reading a quantity in another unit of the family
multiplies by the cumulative scale of its own unit and divides by the
cumulative scale of the target unit, applied once. -/
def Quantity.convert {α : Type} [Field α] {u : RatioUnit α} (q : Quantity u) (t : RatioUnit α) : α :=
  q.value * RatioUnit.scale u / RatioUnit.scale t

/-- Ancestor d a c: unit a is an ancestor of unit d along a MultipleOf chain
whose ratios multiply to the cumulative chain scale c. -/
inductive Ancestor {α : Type} [Field α] : RatioUnit α → RatioUnit α → α → Prop where
  | refl (u : RatioUnit α) : Ancestor u u 1
  | step {p a : RatioUnit α} {c : α} (r : α) (h : Ancestor p a c) :
      Ancestor (RatioUnit.multipleOf p r) a (c * r)

/-- Meter from main.cpp: the base unit of the length family. -/
def Meter : RatioUnit ℚ :=
  RatioUnit.base

/-- Kilometer from main.cpp: MultipleOf Meter with scale 1000. -/
def Kilometer : RatioUnit ℚ :=
  MultipleOf Meter 1000

/-- Millimeter from main.cpp: MultipleOf Meter with scale milli. -/
def Millimeter : RatioUnit ℚ :=
  MultipleOf Meter (1 / 1000)

/-- Centimeter from main.cpp: MultipleOf Millimeter with scale 10. -/
def Centimeter : RatioUnit ℚ :=
  MultipleOf Millimeter 10

theorem Ancestor.scale_eq {α : Type} [Field α] {d a : RatioUnit α} {c : α}
    (h : Ancestor d a c) : RatioUnit.scale d = RatioUnit.scale a * c := by
  induction h with
  | refl u => rw [mul_one]
  | step r h ih => simp only [RatioUnit.scale]; rw [ih, mul_assoc]

theorem convert_to_ancestor {α : Type} [Field α] {d a : RatioUnit α} {c : α}
    (h : Ancestor d a c) (ha : RatioUnit.scale a ≠ 0) (v : α) :
    Quantity.convert (Quantity.mk v : Quantity d) a = v * c := by
  show v * RatioUnit.scale d / RatioUnit.scale a = v * c
  rw [h.scale_eq]
  field_simp
  ring

theorem convert_from_ancestor {α : Type} [Field α] {d a : RatioUnit α} {c : α}
    (h : Ancestor d a c) (ha : RatioUnit.scale a ≠ 0) (w : α) :
    Quantity.convert (Quantity.mk w : Quantity a) d = w / c := by
  show w * RatioUnit.scale a / RatioUnit.scale d = w / c
  rw [h.scale_eq, mul_comm w (RatioUnit.scale a), mul_div_mul_left _ _ ha]

/-- Modelled from the spec: a FormulaConversion relation is a pair of
user-supplied functions, convertFrom mapping a base-unit value to the derived
unit and convertTo mapping a derived-unit value back to the base unit. -/
structure ConvPair (α : Type) where
  convertFrom : α → α
  convertTo : α → α

/-- Modelled from the spec: fluent::ConvertibleTo declares a formula-derived
unit over a base unit; an instance stores the derived-unit value directly,
unscaled. -/
structure ConvertibleTo {α : Type} (baseUnit : RatioUnit α) (conv : ConvPair α) : Type where
  value : α

/-- Modelled from the spec: reading a formula-derived instance in a unit of the
base family invokes convertTo exactly once, then ratio-converts within the base
family. -/
def ConvertibleTo.getAs {α : Type} [Field α] {baseUnit : RatioUnit α} {conv : ConvPair α}
    (q : ConvertibleTo baseUnit conv) (t : RatioUnit α) : α :=
  Quantity.convert (Quantity.mk (ConvPair.convertTo conv q.value) : Quantity baseUnit) t

/-- Modelled from the spec: reading a base-unit instance as the formula-derived
unit invokes the inverse formula convertFrom exactly once. -/
def Quantity.getVia {α : Type} {u : RatioUnit α} (q : Quantity u) (conv : ConvPair α) : α :=
  ConvPair.convertFrom conv q.value

/-- ConvertMileFromAndToKilometer from main.cpp: the mile/kilometer formula
pair. -/
def ConvertMileFromAndToKilometer : ConvPair ℚ :=
  ConvPair.mk (fun kilometer => kilometer / 1.609) (fun mile => mile * 1.609)

/-- Mile from main.cpp: a formula-derived unit over Kilometer. -/
def Mile : Type :=
  ConvertibleTo Kilometer ConvertMileFromAndToKilometer

/-- ConvertDBFromAndToWatt from main.cpp: the decibel/watt formula pair,
convertFrom is 10 times the base-10 logarithm and convertTo is the inverse
power of ten. -/
noncomputable def ConvertDBFromAndToWatt : ConvPair ℝ :=
  ConvPair.mk (fun watt => 10 * Real.log watt / Real.log 10) (fun db => (10 : ℝ) ^ (db / 10))

/-- Modelled from the spec: round to nearest integer, ties to even, the
IEEE-754 default rounding of a real to the integer grid. -/
def rneInt (q : ℚ) : ℤ :=
  if q - ⌊q⌋ < 1 / 2 then ⌊q⌋
  else if 1 / 2 < q - ⌊q⌋ then ⌊q⌋ + 1
  else if 2 ∣ ⌊q⌋ then ⌊q⌋ else ⌊q⌋ + 1

/-- Modelled from the spec: correctly rounded IEEE-754 binary64 value of a
rational lying in the binade from 16 to 32, where doubles are spaced at the
grid of two to the minus 48 (52 fraction bits with exponent 4). -/
def fl16to32 (q : ℚ) : ℚ :=
  (rneInt (q * 2 ^ 48) : ℚ) / 2 ^ 48

/-- Modelled from the spec: a rational is exactly representable as an IEEE-754
binary64 when it is an integer of at most 53 bits times a power of two. -/
def representable53 (q : ℚ) : Prop :=
  ∃ m e : ℤ, |m| ≤ 2 ^ 53 - 1 ∧ q = m * (2 : ℚ) ^ e

/-- C1: for every ratio-derived unit, reading a derived instance in an ancestor
unit multiplies the stored value by the cumulative chain scale, and reading a
base instance in the derived unit divides by it; a Kilometer built from 31
reads as 31000 Meter, and 31000 Meter reads as 31 Kilometer. -/
theorem ratio_ancestor_conversion :
    (∀ (α : Type) [Field α], ∀ {d a : RatioUnit α} {c : α}, Ancestor d a c →
      RatioUnit.scale a ≠ 0 → ∀ v w : α,
      Quantity.convert (Quantity.mk v : Quantity d) a = v * c ∧
      Quantity.convert (Quantity.mk w : Quantity a) d = w / c) ∧
    Quantity.convert (Quantity.mk 31 : Quantity Kilometer) Meter = 31000 ∧
    Quantity.convert (Quantity.mk 31000 : Quantity Meter) Kilometer = 31 := by
  refine ⟨?_, ?_, ?_⟩
  · intro α _ d a c h ha v w
    exact ⟨convert_to_ancestor h ha v, convert_from_ancestor h ha w⟩
  · norm_num [Quantity.convert, RatioUnit.scale, Kilometer, Meter, MultipleOf]
  · norm_num [Quantity.convert, RatioUnit.scale, Kilometer, Meter, MultipleOf]

/-- Witness for C1 at the concrete chain Kilometer over Meter with scale 1000. -/
theorem ratio_ancestor_conversion_witness :
    Quantity.convert (Quantity.mk 2 : Quantity Kilometer) Meter = 2 * (1 * 1000) ∧
    Quantity.convert (Quantity.mk 500 : Quantity Meter) Kilometer = 500 / (1 * 1000) :=
  ratio_ancestor_conversion.1 ℚ (Ancestor.step 1000 (Ancestor.refl Meter))
    (by norm_num [Meter, RatioUnit.scale]) 2 500

/-- C2: conversion across a chain of ratio units applies the product of the
scales once and agrees with materializing any intermediate unit; 31 Kilometer
reads as 31000000 Millimeter, and a Centimeter built from 31 reads as 0.31
Meter. -/
theorem ratio_chain_composition :
    (∀ (α : Type) [Field α], ∀ (u i t : RatioUnit α), RatioUnit.scale i ≠ 0 → ∀ v : α,
      Quantity.convert
        (Quantity.mk (Quantity.convert (Quantity.mk v : Quantity u) i) : Quantity i) t =
        Quantity.convert (Quantity.mk v : Quantity u) t) ∧
    Quantity.convert (Quantity.mk 31 : Quantity Kilometer) Millimeter = 31000000 ∧
    Quantity.convert (Quantity.mk 31 : Quantity Centimeter) Meter = 0.31 := by
  refine ⟨?_, ?_, ?_⟩
  · intro α _ u i t hi v
    show v * RatioUnit.scale u / RatioUnit.scale i * RatioUnit.scale i / RatioUnit.scale t = _
    rw [div_mul_cancel₀ _ hi]
    rfl
  · norm_num [Quantity.convert, RatioUnit.scale, Kilometer, Meter, Millimeter, MultipleOf]
  · norm_num [Quantity.convert, RatioUnit.scale, Centimeter, Meter, Millimeter, MultipleOf]

/-- Witness for C2: materializing Meter between Kilometer and Millimeter gives
the same value as the direct conversion. -/
theorem ratio_chain_composition_witness :
    Quantity.convert
      (Quantity.mk (Quantity.convert (Quantity.mk 31 : Quantity Kilometer) Meter) :
        Quantity Meter) Millimeter =
      Quantity.convert (Quantity.mk 31 : Quantity Kilometer) Millimeter :=
  ratio_chain_composition.1 ℚ Kilometer Meter Millimeter (by norm_num [Meter, RatioUnit.scale]) 31

/-- C3: for Addable wrappers the sum unwraps to the sum of the unwrapped
values (addition is only defined between two values of the same StrongValue
type); 1 Kilometer plus 200 Meter equals 1200 Meter, which also equals 1.2
Kilometer, when all are expressed in Meter. -/
theorem addable_sum :
    (∀ (U Tag : Type) [Add U] (a b : NamedType U Tag), (a + b).get = a.get + b.get) ∧
    Quantity.convert (Quantity.mk 1 : Quantity Kilometer) Meter +
        Quantity.convert (Quantity.mk 200 : Quantity Meter) Meter =
      Quantity.convert (Quantity.mk 1200 : Quantity Meter) Meter ∧
    Quantity.convert (Quantity.mk 1 : Quantity Kilometer) Meter +
        Quantity.convert (Quantity.mk 200 : Quantity Meter) Meter =
      Quantity.convert (Quantity.mk 1.2 : Quantity Kilometer) Meter := by
  refine ⟨?_, ?_, ?_⟩
  · intro U Tag _ a b
    rfl
  · norm_num [Quantity.convert, RatioUnit.scale, Kilometer, Meter, MultipleOf]
  · norm_num [Quantity.convert, RatioUnit.scale, Kilometer, Meter, MultipleOf]

/-- C4: a formula-derived unit stores the constructed literal unscaled, and
crossing units invokes exactly one of the user-supplied conversion functions;
a Mile built from 2 reads as 2 times 1.609 Kilometer via convertTo, and 2
Kilometer reads as 2 divided by 1.609 Mile via convertFrom. -/
theorem formula_unit_conversion :
    (∀ v : ℚ, (ConvertibleTo.mk v : Mile).value = v) ∧
    (∀ v : ℚ, ConvertibleTo.getAs (ConvertibleTo.mk v : Mile) Kilometer =
      ConvertMileFromAndToKilometer.convertTo v) ∧
    (∀ w : ℚ, Quantity.getVia (Quantity.mk w : Quantity Kilometer)
      ConvertMileFromAndToKilometer = ConvertMileFromAndToKilometer.convertFrom w) ∧
    ConvertibleTo.getAs (ConvertibleTo.mk 2 : Mile) Kilometer = 2 * 1.609 ∧
    Quantity.getVia (Quantity.mk 2 : Quantity Kilometer) ConvertMileFromAndToKilometer =
      2 / 1.609 := by
  refine ⟨?_, ?_, ?_, ?_, ?_⟩
  · intro v
    rfl
  · intro v
    show ConvPair.convertTo ConvertMileFromAndToKilometer v * RatioUnit.scale Kilometer /
        RatioUnit.scale Kilometer = ConvPair.convertTo ConvertMileFromAndToKilometer v
    exact mul_div_cancel_right₀ _ (by norm_num [Kilometer, Meter, MultipleOf, RatioUnit.scale])
  · intro w
    rfl
  · norm_num [ConvertibleTo.getAs, Quantity.convert, RatioUnit.scale, Kilometer, Meter,
      MultipleOf, ConvertMileFromAndToKilometer]
  · norm_num [Quantity.getVia, ConvertMileFromAndToKilometer]

/-- C5: ratio round trip is exact: when the chain scale is a rational with a
power-of-two denominator (and is nonzero), converting Derived to Base and back,
or Base to Derived and back, reproduces the original value; 31000 Meter
converts to 31 Kilometer at scale 1000 and back to 31000. -/
theorem ratio_roundtrip_exact {d a : RatioUnit ℚ} {c : ℚ} (h : Ancestor d a c)
    (ha : RatioUnit.scale a ≠ 0) (hc : c ≠ 0) (_hden : ∃ k : ℕ, c.den = 2 ^ k) (v w : ℚ) :
    Quantity.convert
      (Quantity.mk (Quantity.convert (Quantity.mk v : Quantity d) a) : Quantity a) d = v ∧
    Quantity.convert
      (Quantity.mk (Quantity.convert (Quantity.mk w : Quantity a) d) : Quantity d) a = w := by
  constructor
  · rw [convert_to_ancestor h ha, convert_from_ancestor h ha, mul_div_cancel_right₀ _ hc]
  · rw [convert_from_ancestor h ha, convert_to_ancestor h ha, div_mul_cancel₀ _ hc]

/-- Witness for C5: 31000 Meter converts to Kilometer (scale 1000, denominator
one, a power of two) and back to 31000 Meter. -/
theorem ratio_roundtrip_exact_witness :
    Quantity.convert
      (Quantity.mk (Quantity.convert (Quantity.mk 31000 : Quantity Meter) Kilometer) :
        Quantity Kilometer) Meter = 31000 :=
  (ratio_roundtrip_exact (Ancestor.step 1000 (Ancestor.refl Meter))
    (by norm_num [Meter, RatioUnit.scale]) (by norm_num) ⟨0, by norm_num⟩ 0 31000).2

/-- C6: Comparable equality delegates to the underlying equality (the tag is a
phantom and never participates), the not-equal operator is the boolean
negation of equality, and with Hashable attached two wrappers with equal
underlying values hash identically. -/
theorem comparable_hash_delegation :
    (∀ (U Tag : Type) [DecidableEq U] (a b : NamedType U Tag),
      NamedType.beq a b = true ↔ a.get = b.get) ∧
    (∀ (U Tag : Type) [DecidableEq U] (a b : NamedType U Tag),
      NamedType.bne a b = !NamedType.beq a b) ∧
    (∀ (U Tag : Type) [DecidableEq U] (h : U → Nat) (a b : NamedType U Tag),
      NamedType.beq a b = true → NamedType.hashWith h a = NamedType.hashWith h b) := by
  refine ⟨?_, ?_, ?_⟩
  · intro U Tag _ a b
    simp [NamedType.beq]
  · intro U Tag _ a b
    rfl
  · intro U Tag _ h a b hab
    have hg : a.get = b.get := by simpa [NamedType.beq] using hab
    simp [NamedType.hashWith, hg]

/-- Witness for C6 at two serial-number wrappers with equal underlying
strings: they compare equal and hash identically. -/
theorem comparable_hash_delegation_witness :
    NamedType.beq (NamedType.mk "AA11" : NamedType String SerialNumberTag)
      (NamedType.mk "AA11") = true ∧
    NamedType.hashWith String.length
        (NamedType.mk "AA11" : NamedType String SerialNumberTag) =
      NamedType.hashWith String.length
        (NamedType.mk "AA11" : NamedType String SerialNumberTag) := by
  have hb : NamedType.beq (NamedType.mk "AA11" : NamedType String SerialNumberTag)
      (NamedType.mk "AA11") = true :=
    (comparable_hash_delegation.1 String SerialNumberTag (NamedType.mk "AA11")
      (NamedType.mk "AA11")).mpr rfl
  exact ⟨hb, comparable_hash_delegation.2.2 String SerialNumberTag String.length
    (NamedType.mk "AA11") (NamedType.mk "AA11") hb⟩

/-- C7: for the watt/decibel pair, convertFrom applied to 230 lies within 0.1
of 23.617, and the round trip convertTo after convertFrom reproduces every
positive input exactly, hence 230 within 0.1 of itself. -/
theorem db_watt_formula_roundtrip :
    |ConvertDBFromAndToWatt.convertFrom 230 - 23.617| < 0.1 ∧
    (∀ x : ℝ, 0 < x →
      ConvertDBFromAndToWatt.convertTo (ConvertDBFromAndToWatt.convertFrom x) = x) ∧
    |ConvertDBFromAndToWatt.convertTo (ConvertDBFromAndToWatt.convertFrom 230) - 230| <
      0.1 := by
  have hrt : ∀ x : ℝ, 0 < x →
      ConvertDBFromAndToWatt.convertTo (ConvertDBFromAndToWatt.convertFrom x) = x := by
    intro x hx
    show (10 : ℝ) ^ (10 * Real.log x / Real.log 10 / 10) = x
    have h : 10 * Real.log x / Real.log 10 / 10 = Real.log x / Real.log 10 := by ring
    rw [h, Real.log_div_log]
    exact Real.rpow_logb (by norm_num) (by norm_num) hx
  refine ⟨?_, hrt, ?_⟩
  · show |10 * Real.log 230 / Real.log 10 - 23.617| < 0.1
    have hL : 0 < Real.log 10 := Real.log_pos (by norm_num)
    have h1 : Real.log ((10 : ℝ) ^ (59 : ℕ)) < Real.log ((230 : ℝ) ^ (25 : ℕ)) :=
      Real.log_lt_log (by positivity) (by norm_num)
    have h2 : Real.log ((230 : ℝ) ^ (100 : ℕ)) < Real.log ((10 : ℝ) ^ (237 : ℕ)) :=
      Real.log_lt_log (by positivity) (by norm_num)
    rw [Real.log_pow, Real.log_pow] at h1
    rw [Real.log_pow, Real.log_pow] at h2
    push_cast at h1 h2
    have b1 : 23.6 * Real.log 10 < 10 * Real.log 230 := by linarith
    have b2 : 10 * Real.log 230 < 23.7 * Real.log 10 := by linarith
    rw [abs_lt]
    constructor
    · have := (lt_div_iff₀ hL).mpr b1
      linarith
    · have := (div_lt_iff₀ hL).mpr b2
      linarith
  · rw [hrt 230 (by norm_num)]
    norm_num

/-- Witness for C7: the exact round trip applied at 230 watt. -/
theorem db_watt_formula_roundtrip_witness :
    ConvertDBFromAndToWatt.convertTo (ConvertDBFromAndToWatt.convertFrom 230) = 230 :=
  db_watt_formula_roundtrip.2.1 230 (by norm_num)

/-- C8: a wrapper over a signed int holding minus one, implicitly converted
through the unsigned conversion capability, yields exactly the underlying
wraparound result, the maximum representable 32-bit unsigned value; the
wrapper adds no semantics beyond applying the underlying conversion to the
unwrapped value. -/
theorem implicit_conversion_wraparound :
    NamedType.implicitConvert toUnsigned32 (NamedType.mk (-1) : NamedType ℤ MyIntTag) =
      unsignedMax32 ∧
    unsignedMax32 = 2 ^ 32 - 1 ∧
    (∀ (U V Tag : Type) (f : U → V) (a : NamedType U Tag),
      NamedType.implicitConvert f a = f a.get) := by
  refine ⟨?_, rfl, fun U V Tag f a => rfl⟩
  show toUnsigned32 (-1) = unsignedMax32
  decide

/-- C9: writing through a reference-wrapped StrongValue mutates the referent
location in place: after wrapping a string location holding value1 and
assigning value2 through the wrapper, the original location reads value2,
while every other location is untouched. -/
theorem reference_aliasing (h : Heap String) (l : Nat) (_hv : h l = "value1") :
    changeValue (RefNamedType.mk l) h l = "value2" ∧
    ∀ l2 : Nat, l2 ≠ l → changeValue (RefNamedType.mk l) h l2 = h l2 := by
  constructor
  · show (if l = l then "value2" else h l) = "value2"
    simp
  · intro l2 hne
    show (if l2 = l then "value2" else h l2) = h l2
    simp [hne]

/-- Witness for C9 at the concrete heap holding value1 at location 0. -/
theorem reference_aliasing_witness :
    changeValue (RefNamedType.mk 0) (fun _ => "value1") 0 = "value2" :=
  (reference_aliasing (fun _ => "value1") 0 rfl).1

/-- C10: 31234 and 1000 are exactly representable doubles, their exact
quotient is the rational 31.234, so the correctly rounded division produces
exactly the double nearest to 31.234, the same double the literal denotes,
even though 31.234 itself is not exactly representable (its nearest double in
the binade from 16 to 32 differs from it). -/
theorem meter_to_km_decimal_double :
    representable53 31234 ∧ representable53 1000 ∧
    (31234 : ℚ) / 1000 = 31.234 ∧
    fl16to32 (31234 / 1000) = fl16to32 31.234 ∧
    fl16to32 31.234 ≠ 31.234 ∧
    16 ≤ (31.234 : ℚ) ∧ (31.234 : ℚ) < 32 := by
  refine ⟨⟨31234, 0, by norm_num, by norm_num⟩, ⟨1000, 0, by norm_num, by norm_num⟩,
    by norm_num, by norm_num, ?_, by norm_num, by norm_num⟩
  norm_num [fl16to32, rneInt]

end NamedTypeSpec
